import Mathlib

/-!
Shallow embedding of the guardial-sdk Python module (src/python/guardial/__init__.py).

The module is pure glue code: a configuration record resolved from explicit
arguments and environment variables, an analysis client that POSTs a JSON
payload and interprets an allowed flag in the response, and three framework
adapters (a decorator with sync and async branches, a FastAPI middleware and a
Flask before-request hook) that either forward a request to the wrapped
handler or short-circuit with a 403.

Modelling conventions:
- Python dict values are modelled by the inductive PyVal; a JSON object or
  Python dict is an association list.
- The process environment is a function from variable names to Option String,
  mirroring os.getenv.
- The single outbound HTTP round trip of each client call is modelled by an
  Except String PyDict parameter: ok d is a 2xx response whose JSON body
  parsed to d, error e is any raised exception (network error, timeout,
  raise_for_status on a non-2xx, or JSON parse failure) with message e.
- Nondeterministic inputs of the session-id generator, int(time.time()) and
  uuid.uuid4().hex, are passed in as explicit parameters t and hex.
- Each adapter returns a run record that, besides the produced response,
  traces the event payloads sent to the analysis service and the invocations
  of the wrapped handler, so that absence of a network call and the exactly
  once handler contract are statable.
-/

/-- Model of a Python value, as far as this module inspects values: the
response dicts are looked up by key and tested for truthiness only. -/
inductive PyVal where
  | null
  | bool (b : Bool)
  | str (s : String)
  | int (n : Int)
  | dict (d : List (String × PyVal))

abbrev PyDict := List (String × PyVal)

/-- Python truthiness, as used by if not analysis.get(...). -/
def truthy : PyVal → Bool
  | .null => false
  | .bool b => b
  | .str s => !(s == "")
  | .int n => !(n == 0)
  | .dict d => !d.isEmpty

/-- Python dict.get with a default value. -/
def dictGet (d : PyDict) (k : String) (dflt : PyVal) : PyVal :=
  match d.lookup k with
  | some v => v
  | none => dflt

/-- Python s.lower, written over the character list so the kernel can
evaluate it. -/
def strToLower (s : String) : String := ⟨s.data.map Char.toLower⟩

/-- Python s[:n], written over the character list so the kernel can
evaluate it. -/
def strTake (s : String) (n : Nat) : String := ⟨s.data.take n⟩

/-- Python s.startswith(p), written over the character lists so the kernel
can evaluate it. -/
def strStartsWith (s p : String) : Bool := p.data.isPrefixOf s.data

/-- Python x or y for an optional string x: y is used when x is None or
empty, since the empty string is falsy. -/
def pyOrStr (x : Option String) (y : String) : String :=
  match x with
  | some s => if s = "" then y else s
  | none => y

/-- Python os.getenv(name, dflt) over an environment env. -/
def getenvD (env : String → Option String) (name dflt : String) : String :=
  (env name).getD dflt

/-- Decimal rendering of a natural number, as Python str of an int. -/
def natToDecimal (n : Nat) : String :=
  if n = 0 then "0" else ⟨(Nat.digits 10 n).reverse.map Nat.digitChar⟩

/-- The session identifier f-string: session_{int(time.time())}_{uuid.uuid4().hex[:9]},
with the timestamp t and the random hex string passed in explicitly. -/
def mkSessionId (t : Nat) (hex : String) : String :=
  "session_" ++ natToDecimal t ++ "_" ++ strTake hex 9

/-- The ValueError message raised by GuardialConfig when no API key resolves. -/
def apiKeyRequiredMsg : String :=
  "GUARDIAL_API_KEY environment variable is required or pass api_key parameter"

/-- The resolved configuration record built by GuardialConfig. -/
structure GuardialConfig where
  api_key : String
  endpoint : String
  customer_id : String
  debug : Bool
  timeout : Nat
  session_id : String

/-- GuardialConfig constructor. Optional parameters model Python keyword
arguments: none means the argument was omitted, so the Python default applies
(debug=False, timeout=30). Each string field resolves by the Python or
chain explicit-or-getenv, the debug flag by or over the case-insensitive
comparison of GUARDIAL_DEBUG with true, and a ValueError is raised when the
resolved API key is empty; the raise is modelled by Except.error. -/
def GuardialConfig.init (api_key endpoint customer_id : Option String)
    (debug : Option Bool) (timeout : Option Nat)
    (env : String → Option String) (t : Nat) (hex : String) :
    Except String GuardialConfig :=
  let ak := pyOrStr api_key (getenvD env "GUARDIAL_API_KEY" "")
  let ep := pyOrStr endpoint (getenvD env "GUARDIAL_ENDPOINT" "https://api.guardial.in")
  let cid := pyOrStr customer_id (getenvD env "GUARDIAL_CUSTOMER_ID" "default")
  let dbg := debug.getD false || (strToLower (getenvD env "GUARDIAL_DEBUG" "false") == "true")
  if ak = "" then .error apiKeyRequiredMsg
  else .ok ⟨ak, ep, cid, dbg, timeout.getD 30, mkSessionId t hex⟩

/-- Projection of the api_key field out of a constructor outcome. -/
def configApiKey? : Except String GuardialConfig → Option String
  | .ok c => some c.api_key
  | .error _ => none

/-- Projection of the endpoint field out of a constructor outcome. -/
def configEndpoint? : Except String GuardialConfig → Option String
  | .ok c => some c.endpoint
  | .error _ => none

/-- Projection of the customer_id field out of a constructor outcome. -/
def configCustomer? : Except String GuardialConfig → Option String
  | .ok c => some c.customer_id
  | .error _ => none

/-- Projection of the debug field out of a constructor outcome. -/
def configDebug? : Except String GuardialConfig → Option Bool
  | .ok c => some c.debug
  | .error _ => none

/-- Projection of the session_id field out of a constructor outcome. -/
def configSession? : Except String GuardialConfig → Option String
  | .ok c => some c.session_id
  | .error _ => none

/-- The list of authentication header names in _has_auth_headers. -/
def auth_headers : List String := ["authorization", "x-api-key", "x-auth-token"]

/-- GuardialClient._has_auth_headers: any header NAME, lowercased, is a
member of auth_headers; values are never consulted. -/
def _has_auth_headers (headers : List (String × String)) : Bool :=
  headers.any fun h => auth_headers.contains (strToLower h.1)

/-- The event payload dict built by GuardialClient.analyze_event before the
POST, field for field. -/
def buildEvent (cfg : GuardialConfig) (method path source_ip : String)
    (user_agent : Option String) (headers : Option (List (String × String)))
    (query_params request_body : Option String) : PyDict :=
  [("method", .str method),
   ("path", .str path),
   ("source_ip", .str source_ip),
   ("user_agent", .str (pyOrStr user_agent "")),
   ("headers", .dict ((headers.getD []).map fun p => (p.1, PyVal.str p.2))),
   ("query_params", .str (pyOrStr query_params "")),
   ("request_body", .str (pyOrStr request_body "")),
   ("customer_id", .str cfg.customer_id),
   ("has_auth", .bool (_has_auth_headers (headers.getD []))),
   ("session_id", .str cfg.session_id)]

/-- GuardialClient.analyze_event. Returns the event payload it POSTed
together with the dict the caller receives: the parsed response on success,
and on any exception the fail-open fallback dict with allowed True and the
error message. The try-except makes the Python function total, which the
model reflects by returning a plain value rather than an Except. -/
def analyze_event (cfg : GuardialConfig) (method path source_ip : String)
    (user_agent : Option String) (headers : Option (List (String × String)))
    (query_params request_body : Option String)
    (remote : Except String PyDict) : PyDict × PyDict :=
  let event := buildEvent cfg method path source_ip user_agent headers query_params request_body
  match remote with
  | .ok d => (event, d)
  | .error e => (event, [("allowed", .bool true), ("error", .str e)])

/-- GuardialClient.prompt_guard. Returns the request payload it POSTed
together with the dict the caller receives: the parsed response on success,
and on any exception the fail-closed fallback dict with allowed False and
the error message. Total for the same reason as analyze_event. -/
def prompt_guard (input_text : String) (context : Option PyDict)
    (remote : Except String PyDict) : PyDict × PyDict :=
  let request_data := [("input", PyVal.str input_text), ("context", PyVal.dict (context.getD []))]
  match remote with
  | .ok d => (request_data, d)
  | .error e => (request_data, [("allowed", .bool false), ("error", .str e)])

/-- The client object: it only carries its configuration. -/
structure GuardialClient where
  config : GuardialConfig

/-- GuardialClient constructor: config or GuardialConfig(), where a missing
argument triggers a fresh default construction that may raise. -/
def GuardialClient.init (config : Option GuardialConfig)
    (env : String → Option String) (t : Nat) (hex : String) :
    Except String GuardialClient :=
  match config with
  | some c => .ok ⟨c⟩
  | none => (GuardialConfig.init none none none none none env t hex).map GuardialClient.mk

/-- get_client over the module-global _client slot, passed and returned
explicitly: if a client is already stored it is returned unchanged and the
config argument is ignored, otherwise a client is built from the argument
and stored. -/
def get_client (state : Option GuardialClient) (config : Option GuardialConfig)
    (env : String → Option String) (t : Nat) (hex : String) :
    Except String (GuardialClient × Option GuardialClient) :=
  match state with
  | some c => .ok (c, some c)
  | none => (GuardialClient.init config env t hex).map fun c => (c, some c)

/-- The fields the adapters extract from a framework request object: method,
path, the client address when the request carries one (request.client.host
in FastAPI, request.remote_addr in Flask), the header map, the query string
and the decoded body. -/
structure Request where
  method : String
  path : String
  client : Option String
  headers : List (String × String)
  query : String
  body : String

/-- A positional argument of a decorated handler: either a framework request
object, recognisable by its method and url attributes, or anything else. -/
inductive Arg where
  | req (r : Request)
  | val (v : PyVal)

/-- The loop in protect.async_wrapper that scans the positional arguments
for the first one that looks like a request. -/
def extractRequest : List Arg → Option Request
  | [] => none
  | .req r :: _ => some r
  | .val _ :: rest => extractRequest rest

/-- Outcome of a decorated handler call: the wrapped function returned a
value, a fastapi HTTPException was raised, or flask abort was called. -/
inductive CallResult (α : Type) where
  | ok (a : α)
  | httpException (status : Nat) (detail : String)
  | aborted (status : Nat) (message : String)

/-- Trace of one run of a decorator wrapper: the event payloads POSTed to
the analysis service, the argument pairs the wrapped function was invoked
with, and the produced outcome. -/
structure DecoratorRun (α : Type) where
  analysisCalls : List PyDict
  handlerCalls : List (List Arg × PyDict)
  result : CallResult α

/-- FastAPI source-ip extraction: request.client.host when the attribute is
present, the literal unknown otherwise. -/
def fastapiSourceIp (r : Request) : String :=
  match r.client with
  | some h => h
  | none => "unknown"

/-- Flask source-ip extraction: request.remote_addr or unknown, with the
Python or treating None and the empty string as falsy. -/
def flaskSourceIp (r : Request) : String :=
  pyOrStr r.client "unknown"

/-- protect async_wrapper: find a request among the positional arguments;
when one is found run analyze_event on its fields and raise HTTPException
403 when the allowed flag of the result is falsy (missing defaults to True);
otherwise, and when no request is found at all, await the wrapped function
on the unchanged arguments. -/
def async_wrapper {α : Type} (cfg : GuardialConfig) (args : List Arg) (kwargs : PyDict)
    (remote : Except String PyDict) (func : List Arg → PyDict → α) : DecoratorRun α :=
  match extractRequest args with
  | none => ⟨[], [(args, kwargs)], .ok (func args kwargs)⟩
  | some r =>
    let call := analyze_event cfg r.method r.path (fastapiSourceIp r)
      (r.headers.lookup "user-agent") (some r.headers) (some r.query) (some r.body) remote
    if truthy (dictGet call.2 "allowed" (.bool true)) then
      ⟨[call.1], [(args, kwargs)], .ok (func args kwargs)⟩
    else
      ⟨[call.1], [], .httpException 403 "Request blocked by security policy"⟩

/-- protect sync_wrapper: the flask request proxy is consulted (none models
no active request context); when present run analyze_event on its fields and
abort 403 when the allowed flag of the result is falsy; otherwise call the
wrapped function on the unchanged arguments. -/
def sync_wrapper {α : Type} (cfg : GuardialConfig) (flaskReq : Option Request)
    (args : List Arg) (kwargs : PyDict)
    (remote : Except String PyDict) (func : List Arg → PyDict → α) : DecoratorRun α :=
  match flaskReq with
  | none => ⟨[], [(args, kwargs)], .ok (func args kwargs)⟩
  | some r =>
    let call := analyze_event cfg r.method r.path (flaskSourceIp r)
      (r.headers.lookup "user-agent") (some r.headers) (some r.query) (some r.body) remote
    if truthy (dictGet call.2 "allowed" (.bool true)) then
      ⟨[call.1], [(args, kwargs)], .ok (func args kwargs)⟩
    else
      ⟨[call.1], [], .aborted 403 "Request blocked by security policy"⟩

/-- The exclusion list of the FastAPI middleware. -/
def exclude_paths_fastapi : List String := ["/health", "/docs", "/openapi.json"]

/-- The exclusion list of the Flask middleware. -/
def exclude_paths_flask : List String := ["/health", "/static"]

/-- Outcome of the FastAPI middleware: either the response of call_next is
returned or a replacement 403 response object is produced. -/
inductive MiddlewareResult (α : Type) where
  | next (a : α)
  | response (status : Nat) (content mediaType : String)

/-- Trace of one run of the FastAPI middleware: event payloads POSTed, the
requests passed on to call_next, and the produced outcome. -/
structure MiddlewareRun (α : Type) where
  analysisCalls : List PyDict
  nextCalls : List Request
  result : MiddlewareResult α

/-- The json.dumps body of the FastAPI middleware rejection response. -/
def blockedJsonBody : String := "\x7b\"error\": \"Request blocked by security policy\"\x7d"

/-- The guardial_middleware coroutine registered on the FastAPI app: skip
analysis for excluded path prefixes, otherwise run analyze_event on the
request fields and either return a 403 json response when the allowed flag
of the result is falsy or pass the request on to call_next. -/
def guardial_middleware {α : Type} (cfg : GuardialConfig) (req : Request)
    (remote : Except String PyDict) (call_next : Request → α) : MiddlewareRun α :=
  if exclude_paths_fastapi.any (fun p => strStartsWith req.path p) then
    ⟨[], [req], .next (call_next req)⟩
  else
    let call := analyze_event cfg req.method req.path (fastapiSourceIp req)
      (req.headers.lookup "user-agent") (some req.headers) (some req.query) (some req.body) remote
    if truthy (dictGet call.2 "allowed" (.bool true)) then
      ⟨[call.1], [req], .next (call_next req)⟩
    else
      ⟨[call.1], [], .response 403 blockedJsonBody "application/json"⟩

/-- Outcome of the Flask before-request hook: either None is returned and
the pipeline proceeds to the routed handler, or abort raises a 403. -/
inductive BeforeRequestResult where
  | proceed
  | aborted (status : Nat) (message : String)

/-- Trace of one run of the Flask before-request hook. -/
structure BeforeRequestRun where
  analysisCalls : List PyDict
  result : BeforeRequestResult

/-- The guardial_before_request hook registered on the Flask app: skip
analysis for excluded path prefixes, otherwise run analyze_event on the
request fields and abort 403 when the allowed flag of the result is falsy. -/
def guardial_before_request (cfg : GuardialConfig) (req : Request)
    (remote : Except String PyDict) : BeforeRequestRun :=
  if exclude_paths_flask.any (fun p => strStartsWith req.path p) then
    ⟨[], .proceed⟩
  else
    let call := analyze_event cfg req.method req.path (flaskSourceIp req)
      (req.headers.lookup "user-agent") (some req.headers) (some req.query) (some req.body) remote
    if truthy (dictGet call.2 "allowed" (.bool true)) then
      ⟨[call.1], .proceed⟩
    else
      ⟨[call.1], .aborted 403 "Request blocked by security policy"⟩

/-- A concrete resolved configuration used to instantiate theorems. -/
def cfg0 : GuardialConfig :=
  ⟨"key", "https://api.guardial.in", "default", false, 30, "session_0_abc"⟩

/-- A concrete request to the excluded path /health. -/
def reqHealth : Request := ⟨"GET", "/health", some "1.2.3.4", [], "", ""⟩

/-- A concrete request to /docs, excluded by the FastAPI middleware. -/
def reqDocs : Request := ⟨"GET", "/docs", some "1.2.3.4", [], "", ""⟩

/-- A concrete request to a static asset, excluded by the Flask middleware. -/
def reqStatic : Request := ⟨"GET", "/static/app.js", some "1.2.3.4", [], "", ""⟩

/-- A concrete request to an ordinary, non-excluded path. -/
def reqPlain : Request :=
  ⟨"POST", "/users", some "1.2.3.4", [("user-agent", "curl"), ("Authorization", "Bearer x")], "a=1", "hello"⟩

theorem strData_append (a b : String) : (a ++ b).data = a.data ++ b.data := by
  cases a; cases b; rfl

theorem strExt (a b : String) (h : a.data = b.data) : a = b := by
  cases a; cases b; exact congrArg String.mk h

theorem digitChar_inj_lt (a b : Nat) (ha : a < 10) (hb : b < 10)
    (h : Nat.digitChar a = Nat.digitChar b) : a = b := by
  interval_cases a <;> interval_cases b <;> revert h <;> decide

theorem mapDigitChar_inj : ∀ (l1 l2 : List Nat), (∀ d ∈ l1, d < 10) → (∀ d ∈ l2, d < 10) →
    l1.map Nat.digitChar = l2.map Nat.digitChar → l1 = l2 := by
  intro l1
  induction l1 with
  | nil =>
    intro l2 _ _ h
    cases l2 with
    | nil => rfl
    | cons b t2 => simp at h
  | cons a t ih =>
    intro l2 h1 h2 h
    cases l2 with
    | nil => simp at h
    | cons b t2 =>
      simp only [List.map_cons, List.cons.injEq] at h
      have hab := digitChar_inj_lt a b (h1 a (by simp)) (h2 b (by simp)) h.1
      subst hab
      have ht := ih t2 (fun d hd => h1 d (by simp [hd])) (fun d hd => h2 d (by simp [hd])) h.2
      simp [ht]

theorem digits_eq_of_revMap_eq (m n : Nat)
    (h : (Nat.digits 10 m).reverse.map Nat.digitChar = (Nat.digits 10 n).reverse.map Nat.digitChar) :
    m = n := by
  have bm : ∀ d ∈ (Nat.digits 10 m).reverse, d < 10 := fun d hd =>
    Nat.digits_lt_base (by norm_num) (List.mem_reverse.mp hd)
  have bn : ∀ d ∈ (Nat.digits 10 n).reverse, d < 10 := fun d hd =>
    Nat.digits_lt_base (by norm_num) (List.mem_reverse.mp hd)
  have hrev := mapDigitChar_inj _ _ bm bn h
  have hdig : Nat.digits 10 m = Nat.digits 10 n := by
    have := congrArg List.reverse hrev
    simpa using this
  have := congrArg (Nat.ofDigits 10) hdig
  simpa [Nat.ofDigits_digits] using this

theorem natToDecimal_inj (m n : Nat) (h : natToDecimal m = natToDecimal n) : m = n := by
  have zeroCase : ∀ j : Nat, natToDecimal j = "0" → j = 0 := by
    intro j hj
    by_cases hj0 : j = 0
    · exact hj0
    · exfalso
      have hdata : ((Nat.digits 10 j).reverse.map Nat.digitChar) = ['0'] := by
        have := congrArg String.data hj
        simpa [natToDecimal, hj0] using this
      cases hR : (Nat.digits 10 j).reverse with
      | nil => rw [hR] at hdata; simp at hdata
      | cons x t =>
        rw [hR] at hdata
        simp only [List.map_cons, List.cons.injEq] at hdata
        have htnil : t = [] := by
          have := hdata.2
          cases t with
          | nil => rfl
          | cons y s => simp at this
        have hxmem : x ∈ Nat.digits 10 j := by
          refine List.mem_reverse.mp ?_
          rw [hR]; simp
        have hx10 : x < 10 := Nat.digits_lt_base (by norm_num) hxmem
        have hx0 : x = 0 := digitChar_inj_lt x 0 hx10 (by norm_num) (by simpa using hdata.1)
        have hd0 : Nat.digits 10 j = [0] := by
          have : (Nat.digits 10 j).reverse = [0] := by rw [hR, hx0, htnil]
          have := congrArg List.reverse this
          simpa using this
        have := congrArg (Nat.ofDigits 10) hd0
        rw [Nat.ofDigits_digits] at this
        simp [Nat.ofDigits] at this
        exact hj0 this
  by_cases hm : m = 0 <;> by_cases hn : n = 0
  · rw [hm, hn]
  · exfalso
    have : n = 0 := zeroCase n (by rw [← h, hm]; rfl)
    exact hn this
  · exfalso
    have : m = 0 := zeroCase m (by rw [h, hn]; rfl)
    exact hm this
  · refine digits_eq_of_revMap_eq m n ?_
    have := congrArg String.data h
    simpa [natToDecimal, hm, hn] using this

theorem mkSessionId_inj_of (t1 t2 : Nat) (h1 h2 : String)
    (hl1 : (strTake h1 9).length = 9) (hl2 : (strTake h2 9).length = 9)
    (hne : t1 ≠ t2 ∨ strTake h1 9 ≠ strTake h2 9) :
    mkSessionId t1 h1 ≠ mkSessionId t2 h2 := by
  intro heq
  have expand : ∀ t hx, (mkSessionId t hx).data
      = "session_".data ++ ((natToDecimal t).data ++ ("_".data ++ (strTake hx 9).data)) := by
    intro t hx
    simp [mkSessionId, strData_append, List.append_assoc]
  have hd := congrArg String.data heq
  rw [expand, expand] at hd
  have step1 := (List.append_inj hd rfl).2
  have hlenS1 : (strTake h1 9).data.length = 9 := hl1
  have hlenS2 : (strTake h2 9).data.length = 9 := hl2
  have hlen : (natToDecimal t1).data.length = (natToDecimal t2).data.length := by
    have := congrArg List.length step1
    simp only [List.length_append, List.length_cons] at this
    rw [hlenS1, hlenS2] at this
    omega
  have step2 := List.append_inj step1 hlen
  have hS := (List.append_inj step2.2 rfl).2
  cases hne with
  | inl hT =>
    exact hT (natToDecimal_inj t1 t2 (strExt _ _ step2.1))
  | inr hSne =>
    exact hSne (strExt _ _ hS)

/-- C1: on any remote-call failure, modelled by Except.error e covering
network errors, timeouts, non-2xx statuses via raise_for_status and
malformed JSON, analyze_event returns the fail-open dict with allowed True
and the error string, and prompt_guard returns the fail-closed dict with
allowed False and the error string; both functions are total in the model,
so no exception reaches the caller. -/
theorem remote_failure_fail_open_closed
    (cfg : GuardialConfig) (method path source_ip : String)
    (user_agent : Option String) (headers : Option (List (String × String)))
    (query_params request_body : Option String)
    (input_text : String) (context : Option PyDict) (e : String) :
    (analyze_event cfg method path source_ip user_agent headers query_params request_body
        (.error e)).2
      = [("allowed", PyVal.bool true), ("error", PyVal.str e)]
    ∧ (prompt_guard input_text context (.error e)).2
      = [("allowed", PyVal.bool false), ("error", PyVal.str e)] :=
  ⟨rfl, rfl⟩

/-- C2: when the analysis response dict maps allowed to False, the async
decorator branch raises HTTPException 403, the sync branch aborts 403, the
FastAPI middleware returns a 403 response whose json body names the blocking
policy, the Flask hook aborts 403, and in every variant the wrapped handler
or downstream pipeline is never invoked. -/
theorem blocked_request_short_circuits
    (cfg : GuardialConfig) (args : List Arg) (kwargs : PyDict) (r req : Request)
    (d : PyDict) (γ : Type) (func : List Arg → PyDict → γ) (call_next : Request → γ)
    (hargs : extractRequest args = some r)
    (hd : d.lookup "allowed" = some (PyVal.bool false))
    (hmw : exclude_paths_fastapi.any (fun p => strStartsWith req.path p) = false)
    (hfl : exclude_paths_flask.any (fun p => strStartsWith req.path p) = false) :
    (async_wrapper cfg args kwargs (.ok d) func).result
      = .httpException 403 "Request blocked by security policy"
    ∧ (async_wrapper cfg args kwargs (.ok d) func).handlerCalls = []
    ∧ (sync_wrapper cfg (some r) args kwargs (.ok d) func).result
      = .aborted 403 "Request blocked by security policy"
    ∧ (sync_wrapper cfg (some r) args kwargs (.ok d) func).handlerCalls = []
    ∧ (guardial_middleware cfg req (.ok d) call_next).result
      = .response 403 blockedJsonBody "application/json"
    ∧ (guardial_middleware cfg req (.ok d) call_next).nextCalls = []
    ∧ (guardial_before_request cfg req (.ok d)).result
      = .aborted 403 "Request blocked by security policy" := by
  have hget : dictGet d "allowed" (PyVal.bool true) = PyVal.bool false := by
    simp [dictGet, hd]
  refine ⟨?_, ?_, ?_, ?_, ?_, ?_, ?_⟩ <;>
    simp [async_wrapper, sync_wrapper, guardial_middleware, guardial_before_request,
      analyze_event, hargs, hget, hmw, hfl, truthy]

theorem blocked_request_short_circuits_witness :
    (async_wrapper cfg0 [Arg.req reqPlain] [] (.ok [("allowed", PyVal.bool false)])
        (fun _ _ => (0 : Nat))).result
      = .httpException 403 "Request blocked by security policy"
    ∧ (async_wrapper cfg0 [Arg.req reqPlain] [] (.ok [("allowed", PyVal.bool false)])
        (fun _ _ => (0 : Nat))).handlerCalls = []
    ∧ (sync_wrapper cfg0 (some reqPlain) [Arg.req reqPlain] []
        (.ok [("allowed", PyVal.bool false)]) (fun _ _ => (0 : Nat))).result
      = .aborted 403 "Request blocked by security policy"
    ∧ (sync_wrapper cfg0 (some reqPlain) [Arg.req reqPlain] []
        (.ok [("allowed", PyVal.bool false)]) (fun _ _ => (0 : Nat))).handlerCalls = []
    ∧ (guardial_middleware cfg0 reqPlain (.ok [("allowed", PyVal.bool false)])
        (fun _ => (1 : Nat))).result = .response 403 blockedJsonBody "application/json"
    ∧ (guardial_middleware cfg0 reqPlain (.ok [("allowed", PyVal.bool false)])
        (fun _ => (1 : Nat))).nextCalls = []
    ∧ (guardial_before_request cfg0 reqPlain (.ok [("allowed", PyVal.bool false)])).result
      = .aborted 403 "Request blocked by security policy" :=
  blocked_request_short_circuits cfg0 [Arg.req reqPlain] [] reqPlain reqPlain
    [("allowed", PyVal.bool false)] Nat (fun _ _ => 0) (fun _ => 1)
    rfl rfl (by decide) (by decide)

/-- C3: with no explicit api_key and no GUARDIAL_API_KEY in the environment
the constructor stops with the ValueError message, purely locally, the model
of construction taking no network parameter at all; with a non-empty key
passed explicitly, or a non-empty key in the environment, construction
succeeds and resolves exactly that key. -/
theorem api_key_required_fail_fast
    (s k : String) (ep cid : Option String) (dbg : Option Bool) (tmo : Option Nat)
    (envAbsent envHas : String → Option String) (t : Nat) (hex : String)
    (ha : envAbsent "GUARDIAL_API_KEY" = none)
    (hh : envHas "GUARDIAL_API_KEY" = some k)
    (hk : k ≠ "") (hsn : s ≠ "") :
    GuardialConfig.init none ep cid dbg tmo envAbsent t hex = .error apiKeyRequiredMsg
    ∧ configApiKey? (GuardialConfig.init (some s) ep cid dbg tmo envAbsent t hex) = some s
    ∧ configApiKey? (GuardialConfig.init none ep cid dbg tmo envHas t hex) = some k := by
  refine ⟨?_, ?_, ?_⟩ <;>
    simp [GuardialConfig.init, pyOrStr, getenvD, ha, hh, hk, hsn, configApiKey?]

theorem api_key_required_fail_fast_witness :
    GuardialConfig.init none none none none none (fun _ => none) 0 "" = .error apiKeyRequiredMsg
    ∧ configApiKey? (GuardialConfig.init (some "sk") none none none none (fun _ => none) 0 "")
      = some "sk"
    ∧ configApiKey? (GuardialConfig.init none none none none none
        (fun n => if n = "GUARDIAL_API_KEY" then some "ek" else none) 0 "") = some "ek" :=
  api_key_required_fail_fast "sk" "ek" none none none none (fun _ => none)
    (fun n => if n = "GUARDIAL_API_KEY" then some "ek" else none) 0 ""
    rfl (by decide) (by decide) (by decide)

/-- C4: explicit non-empty values win over a fully populated environment for
api_key, endpoint and customer_id, an explicit True debug flag wins over the
environment, and the explicit timeout is taken as passed; with an explicit
value absent each field falls back to its environment variable, the debug
flag comparing GUARDIAL_DEBUG case-insensitively with true; with the
environment also silent the hardcoded defaults endpoint
https://api.guardial.in, customer default, debug False and timeout 30 apply.
An explicit empty string or False is falsy in the Python or chain and
indistinguishable from an omitted argument, hence the non-emptiness
hypotheses. -/
theorem config_resolution_precedence
    (ak ep cid e c dstr k : String) (tmo : Nat) (t : Nat) (hex : String)
    (envAll envNone : String → Option String)
    (hak : ak ≠ "") (hep : ep ≠ "") (hcid : cid ≠ "")
    (hE : envAll "GUARDIAL_ENDPOINT" = some e)
    (hC : envAll "GUARDIAL_CUSTOMER_ID" = some c)
    (hD : envAll "GUARDIAL_DEBUG" = some dstr)
    (hK : envAll "GUARDIAL_API_KEY" = some k) (hk : k ≠ "")
    (hNE : envNone "GUARDIAL_ENDPOINT" = none)
    (hNC : envNone "GUARDIAL_CUSTOMER_ID" = none)
    (hND : envNone "GUARDIAL_DEBUG" = none) :
    GuardialConfig.init (some ak) (some ep) (some cid) (some true) (some tmo) envAll t hex
      = .ok ⟨ak, ep, cid, true, tmo, mkSessionId t hex⟩
    ∧ configEndpoint? (GuardialConfig.init (some ak) none none none none envAll t hex) = some e
    ∧ configCustomer? (GuardialConfig.init (some ak) none none none none envAll t hex) = some c
    ∧ configDebug? (GuardialConfig.init (some ak) none none none none envAll t hex)
      = some (strToLower dstr == "true")
    ∧ configApiKey? (GuardialConfig.init none none none none none envAll t hex) = some k
    ∧ GuardialConfig.init (some ak) none none none none envNone t hex
      = .ok ⟨ak, "https://api.guardial.in", "default", false, 30, mkSessionId t hex⟩ := by
  refine ⟨?_, ?_, ?_, ?_, ?_, ?_⟩ <;>
    simp [GuardialConfig.init, pyOrStr, getenvD, hak, hep, hcid, hE, hC, hD, hK, hk,
      hNE, hNC, hND, configEndpoint?, configCustomer?, configDebug?, configApiKey?,
      show strToLower "false" = "false" from rfl]

theorem config_resolution_precedence_witness :
    GuardialConfig.init (some "xk") (some "https://alt") (some "cust") (some true) (some 7)
        (fun n => if n = "GUARDIAL_ENDPOINT" then some "https://env" else
          if n = "GUARDIAL_CUSTOMER_ID" then some "envcust" else
          if n = "GUARDIAL_DEBUG" then some "TRUE" else
          if n = "GUARDIAL_API_KEY" then some "envkey" else none) 5 "abc"
      = .ok ⟨"xk", "https://alt", "cust", true, 7, mkSessionId 5 "abc"⟩
    ∧ configEndpoint? (GuardialConfig.init (some "xk") none none none none
        (fun n => if n = "GUARDIAL_ENDPOINT" then some "https://env" else
          if n = "GUARDIAL_CUSTOMER_ID" then some "envcust" else
          if n = "GUARDIAL_DEBUG" then some "TRUE" else
          if n = "GUARDIAL_API_KEY" then some "envkey" else none) 5 "abc") = some "https://env"
    ∧ configCustomer? (GuardialConfig.init (some "xk") none none none none
        (fun n => if n = "GUARDIAL_ENDPOINT" then some "https://env" else
          if n = "GUARDIAL_CUSTOMER_ID" then some "envcust" else
          if n = "GUARDIAL_DEBUG" then some "TRUE" else
          if n = "GUARDIAL_API_KEY" then some "envkey" else none) 5 "abc") = some "envcust"
    ∧ configDebug? (GuardialConfig.init (some "xk") none none none none
        (fun n => if n = "GUARDIAL_ENDPOINT" then some "https://env" else
          if n = "GUARDIAL_CUSTOMER_ID" then some "envcust" else
          if n = "GUARDIAL_DEBUG" then some "TRUE" else
          if n = "GUARDIAL_API_KEY" then some "envkey" else none) 5 "abc")
      = some (strToLower "TRUE" == "true")
    ∧ configApiKey? (GuardialConfig.init none none none none none
        (fun n => if n = "GUARDIAL_ENDPOINT" then some "https://env" else
          if n = "GUARDIAL_CUSTOMER_ID" then some "envcust" else
          if n = "GUARDIAL_DEBUG" then some "TRUE" else
          if n = "GUARDIAL_API_KEY" then some "envkey" else none) 5 "abc") = some "envkey"
    ∧ GuardialConfig.init (some "xk") none none none none (fun _ => none) 5 "abc"
      = .ok ⟨"xk", "https://api.guardial.in", "default", false, 30, mkSessionId 5 "abc"⟩ :=
  config_resolution_precedence "xk" "https://alt" "cust" "https://env" "envcust" "TRUE"
    "envkey" 7 5 "abc"
    (fun n => if n = "GUARDIAL_ENDPOINT" then some "https://env" else
      if n = "GUARDIAL_CUSTOMER_ID" then some "envcust" else
      if n = "GUARDIAL_DEBUG" then some "TRUE" else
      if n = "GUARDIAL_API_KEY" then some "envkey" else none)
    (fun _ => none)
    (by decide) (by decide) (by decide) (by decide) (by decide) (by decide) (by decide)
    (by decide) rfl rfl rfl

/-- C5 counterexample: the protect decorator is one of the adapters, yet it
has no excluded-path logic: on a request to /health the async wrapper still
performs an analysis call, so the claim that every adapter skips analysis
for excluded paths fails on the code. -/
theorem decorator_analyzes_health_path :
    (async_wrapper cfg0 [Arg.req reqHealth] [] (Except.ok [("allowed", PyVal.bool true)])
      (fun _ _ => (0 : Nat))).analysisCalls ≠ [] :=
  List.cons_ne_nil _ _

/-- C5 amended: the two middleware adapters skip analysis for a path that
starts with one of their own excluded prefixes, /health, /docs and
/openapi.json for FastAPI and /health and /static for Flask: no analysis
call is traced and the request proceeds to call_next respectively to the
rest of the Flask pipeline; the protect decorator performs no such
exclusion. -/
theorem middleware_excluded_paths_skip_analysis
    (cfg : GuardialConfig) (req1 req2 : Request) (remote : Except String PyDict)
    (γ : Type) (call_next : Request → γ)
    (hfa : exclude_paths_fastapi.any (fun p => strStartsWith req1.path p) = true)
    (hfl : exclude_paths_flask.any (fun p => strStartsWith req2.path p) = true) :
    guardial_middleware cfg req1 remote call_next
      = ⟨[], [req1], .next (call_next req1)⟩
    ∧ guardial_before_request cfg req2 remote = ⟨[], .proceed⟩ := by
  refine ⟨?_, ?_⟩ <;> simp [guardial_middleware, guardial_before_request, hfa, hfl]

theorem middleware_excluded_paths_skip_analysis_witness :
    guardial_middleware cfg0 reqDocs (Except.error "down") (fun _ => (1 : Nat))
      = ⟨[], [reqDocs], .next 1⟩
    ∧ guardial_before_request cfg0 reqStatic (Except.error "down") = ⟨[], .proceed⟩ :=
  middleware_excluded_paths_skip_analysis cfg0 reqDocs reqStatic (Except.error "down")
    Nat (fun _ => 1) (by decide) (by decide)

/-- C6: when the analysis response dict maps allowed to True, the async and
sync decorator branches invoke the wrapped function exactly once, on the
unchanged positional and keyword arguments, and return its value unchanged,
and the FastAPI middleware passes the unchanged request to call_next exactly
once and returns its response. -/
theorem allowed_request_invokes_handler_once
    (cfg : GuardialConfig) (args : List Arg) (kwargs : PyDict) (r req : Request)
    (d : PyDict) (γ : Type) (func : List Arg → PyDict → γ) (call_next : Request → γ)
    (hargs : extractRequest args = some r)
    (hd : d.lookup "allowed" = some (PyVal.bool true))
    (hmw : exclude_paths_fastapi.any (fun p => strStartsWith req.path p) = false) :
    (async_wrapper cfg args kwargs (.ok d) func).handlerCalls = [(args, kwargs)]
    ∧ (async_wrapper cfg args kwargs (.ok d) func).result = .ok (func args kwargs)
    ∧ (sync_wrapper cfg (some r) args kwargs (.ok d) func).handlerCalls = [(args, kwargs)]
    ∧ (sync_wrapper cfg (some r) args kwargs (.ok d) func).result = .ok (func args kwargs)
    ∧ (guardial_middleware cfg req (.ok d) call_next).nextCalls = [req]
    ∧ (guardial_middleware cfg req (.ok d) call_next).result = .next (call_next req) := by
  have hget : dictGet d "allowed" (PyVal.bool true) = PyVal.bool true := by
    simp [dictGet, hd]
  refine ⟨?_, ?_, ?_, ?_, ?_, ?_⟩ <;>
    simp [async_wrapper, sync_wrapper, guardial_middleware, analyze_event,
      hargs, hget, hmw, truthy]

theorem allowed_request_invokes_handler_once_witness :
    (async_wrapper cfg0 [Arg.req reqPlain] [] (.ok [("allowed", PyVal.bool true)])
        (fun _ _ => (0 : Nat))).handlerCalls = [([Arg.req reqPlain], [])]
    ∧ (async_wrapper cfg0 [Arg.req reqPlain] [] (.ok [("allowed", PyVal.bool true)])
        (fun _ _ => (0 : Nat))).result = .ok 0
    ∧ (sync_wrapper cfg0 (some reqPlain) [Arg.req reqPlain] []
        (.ok [("allowed", PyVal.bool true)]) (fun _ _ => (0 : Nat))).handlerCalls
      = [([Arg.req reqPlain], [])]
    ∧ (sync_wrapper cfg0 (some reqPlain) [Arg.req reqPlain] []
        (.ok [("allowed", PyVal.bool true)]) (fun _ _ => (0 : Nat))).result = .ok 0
    ∧ (guardial_middleware cfg0 reqPlain (.ok [("allowed", PyVal.bool true)])
        (fun _ => (1 : Nat))).nextCalls = [reqPlain]
    ∧ (guardial_middleware cfg0 reqPlain (.ok [("allowed", PyVal.bool true)])
        (fun _ => (1 : Nat))).result = .next 1 :=
  allowed_request_invokes_handler_once cfg0 [Arg.req reqPlain] [] reqPlain reqPlain
    [("allowed", PyVal.bool true)] Nat (fun _ _ => 0) (fun _ => 1)
    rfl rfl (by decide)

/-- C7: every event payload carries the session_id stored in the
configuration, so all analysis calls of one process, which share the one
configuration built at import of the process, report the same identifier;
the constructor stores exactly the identifier composed from the process
start timestamp and the random hex suffix; and two initializations whose
timestamp or whose nine-character random suffix differ produce different
identifiers, the hypotheses fixing the suffix length to the nine characters
uuid4 hex always has. -/
theorem session_id_stable_per_process_distinct_across
    (cfg : GuardialConfig)
    (m1 p1 ip1 : String) (ua1 : Option String) (hs1 : Option (List (String × String)))
    (q1 b1 : Option String)
    (m2 p2 ip2 : String) (ua2 : Option String) (hs2 : Option (List (String × String)))
    (q2 b2 : Option String)
    (s : String) (ep cid : Option String) (dbg : Option Bool) (tmo : Option Nat)
    (env : String → Option String) (t1 t2 : Nat) (hex1 hex2 : String)
    (hsn : s ≠ "")
    (hl1 : (strTake hex1 9).length = 9) (hl2 : (strTake hex2 9).length = 9)
    (hne : t1 ≠ t2 ∨ strTake hex1 9 ≠ strTake hex2 9) :
    (buildEvent cfg m1 p1 ip1 ua1 hs1 q1 b1).lookup "session_id"
      = some (PyVal.str cfg.session_id)
    ∧ (buildEvent cfg m2 p2 ip2 ua2 hs2 q2 b2).lookup "session_id"
      = some (PyVal.str cfg.session_id)
    ∧ configSession? (GuardialConfig.init (some s) ep cid dbg tmo env t1 hex1)
      = some (mkSessionId t1 hex1)
    ∧ mkSessionId t1 hex1 ≠ mkSessionId t2 hex2 := by
  refine ⟨rfl, rfl, ?_, mkSessionId_inj_of t1 t2 hex1 hex2 hl1 hl2 hne⟩
  simp [GuardialConfig.init, pyOrStr, hsn, configSession?]

theorem session_id_stable_per_process_distinct_across_witness :
    (buildEvent cfg0 "GET" "/a" "ip" none none none none).lookup "session_id"
      = some (PyVal.str cfg0.session_id)
    ∧ (buildEvent cfg0 "POST" "/b" "ip2" none none none none).lookup "session_id"
      = some (PyVal.str cfg0.session_id)
    ∧ configSession? (GuardialConfig.init (some "key") none none none none
        (fun _ => none) 1700000000 "abcdef01234567890abcdef012345678")
      = some (mkSessionId 1700000000 "abcdef01234567890abcdef012345678")
    ∧ mkSessionId 1700000000 "abcdef01234567890abcdef012345678"
      ≠ mkSessionId 1700000001 "abcdef01234567890abcdef012345678" :=
  session_id_stable_per_process_distinct_across cfg0
    "GET" "/a" "ip" none none none none
    "POST" "/b" "ip2" none none none none
    "key" none none none none (fun _ => none)
    1700000000 1700000001
    "abcdef01234567890abcdef012345678" "abcdef01234567890abcdef012345678"
    (by decide) (by decide) (by decide) (Or.inl (by decide))

/-- C8: a successful response dict with no allowed key at all is treated as
allowed in every adapter, because dict.get defaults the flag to True: the
decorator branches invoke the wrapped function, the FastAPI middleware
passes the request on and the Flask hook lets the pipeline proceed. -/
theorem missing_allowed_key_defaults_to_allow
    (cfg : GuardialConfig) (args : List Arg) (kwargs : PyDict) (r req : Request)
    (d : PyDict) (γ : Type) (func : List Arg → PyDict → γ) (call_next : Request → γ)
    (hargs : extractRequest args = some r)
    (hd : d.lookup "allowed" = none)
    (hmw : exclude_paths_fastapi.any (fun p => strStartsWith req.path p) = false)
    (hfl : exclude_paths_flask.any (fun p => strStartsWith req.path p) = false) :
    (async_wrapper cfg args kwargs (.ok d) func).result = .ok (func args kwargs)
    ∧ (async_wrapper cfg args kwargs (.ok d) func).handlerCalls = [(args, kwargs)]
    ∧ (sync_wrapper cfg (some r) args kwargs (.ok d) func).result = .ok (func args kwargs)
    ∧ (guardial_middleware cfg req (.ok d) call_next).result = .next (call_next req)
    ∧ (guardial_before_request cfg req (.ok d)).result = .proceed := by
  have hget : dictGet d "allowed" (PyVal.bool true) = PyVal.bool true := by
    simp [dictGet, hd]
  refine ⟨?_, ?_, ?_, ?_, ?_⟩ <;>
    simp [async_wrapper, sync_wrapper, guardial_middleware, guardial_before_request,
      analyze_event, hargs, hget, hmw, hfl, truthy]

theorem missing_allowed_key_defaults_to_allow_witness :
    (async_wrapper cfg0 [Arg.req reqPlain] [] (.ok [("status", PyVal.str "ok")])
        (fun _ _ => (0 : Nat))).result = .ok 0
    ∧ (async_wrapper cfg0 [Arg.req reqPlain] [] (.ok [("status", PyVal.str "ok")])
        (fun _ _ => (0 : Nat))).handlerCalls = [([Arg.req reqPlain], [])]
    ∧ (sync_wrapper cfg0 (some reqPlain) [Arg.req reqPlain] []
        (.ok [("status", PyVal.str "ok")]) (fun _ _ => (0 : Nat))).result = .ok 0
    ∧ (guardial_middleware cfg0 reqPlain (.ok [("status", PyVal.str "ok")])
        (fun _ => (1 : Nat))).result = .next 1
    ∧ (guardial_before_request cfg0 reqPlain (.ok [("status", PyVal.str "ok")])).result
      = .proceed :=
  missing_allowed_key_defaults_to_allow cfg0 [Arg.req reqPlain] [] reqPlain reqPlain
    [("status", PyVal.str "ok")] Nat (fun _ _ => 0) (fun _ => 1)
    rfl rfl (by decide) (by decide)

/-- C9: once a first get_client call has stored a client, every later call
returns that same client and leaves the stored state unchanged, whatever
configuration argument, environment or entropy the later call sees; and a
first call with an explicit configuration stores exactly the client wrapping
that configuration. -/
theorem get_client_singleton
    (c : GuardialClient) (st : Option GuardialClient)
    (cfg1 cfg2 : Option GuardialConfig) (cfg : GuardialConfig)
    (env env2 : String → Option String) (t t2 : Nat) (hex hex2 : String)
    (hfirst : get_client none cfg1 env t hex = .ok (c, st)) :
    get_client st cfg2 env2 t2 hex2 = .ok (c, st)
    ∧ get_client none (some cfg) env t hex = .ok (⟨cfg⟩, some ⟨cfg⟩) := by
  refine ⟨?_, rfl⟩
  cases hinit : GuardialClient.init cfg1 env t hex with
  | error e => simp [get_client, hinit, Except.map] at hfirst
  | ok c0 =>
    simp [get_client, hinit, Except.map] at hfirst
    obtain ⟨hc, hst⟩ := hfirst
    subst hc
    subst hst
    rfl

theorem get_client_singleton_witness :
    get_client (some ⟨cfg0⟩) none (fun _ => some "ignored") 9 "zzz"
      = .ok (⟨cfg0⟩, some ⟨cfg0⟩)
    ∧ get_client none (some cfg0) (fun _ => none) 0 "" = .ok (⟨cfg0⟩, some ⟨cfg0⟩) :=
  get_client_singleton ⟨cfg0⟩ (some ⟨cfg0⟩) (some cfg0) none cfg0
    (fun _ => none) (fun _ => some "ignored") 0 9 "" "zzz" rfl

/-- C10: the has_auth flag is derived from header names only: it is True
exactly when some header name, lowercased, equals authorization, x-api-key
or x-auth-token; it is False on the empty header map and on an absent one;
it is unchanged under any rewriting of the header values; and the event
payload carries exactly this derived flag. -/
theorem has_auth_from_header_names_only
    (cfg : GuardialConfig) (headers : List (String × String))
    (method path source_ip : String) (user_agent : Option String)
    (query_params request_body : Option String) (f : String → String) :
    (_has_auth_headers headers = true ↔
      ∃ p, p ∈ headers ∧ (strToLower p.1 = "authorization" ∨ strToLower p.1 = "x-api-key"
        ∨ strToLower p.1 = "x-auth-token"))
    ∧ _has_auth_headers [] = false
    ∧ _has_auth_headers (headers.map fun p => (p.1, f p.2)) = _has_auth_headers headers
    ∧ (buildEvent cfg method path source_ip user_agent (some headers)
        query_params request_body).lookup "has_auth"
      = some (PyVal.bool (_has_auth_headers headers))
    ∧ (buildEvent cfg method path source_ip user_agent none
        query_params request_body).lookup "has_auth"
      = some (PyVal.bool false) := by
  refine ⟨?_, rfl, ?_, rfl, rfl⟩
  · simp [_has_auth_headers, List.any_eq_true, auth_headers]
  · simp [_has_auth_headers, List.any_map, Function.comp_def]
